import Mathlib

/-!
Verification of the Diamond Mind agent core: a shallow embedding of
`packages/diamond_mind/shared/base_agent.py` (the `BaseAgent` runtime) and
`packages/diamond_mind/src/diamond_mind/shared/messaging.py` (the Redis-backed
`MessageQueue` broker), with the data model of
`packages/diamond_mind/src/diamond_mind/shared/schemas.py`.

Modelling conventions:
- Timestamps are naturals; elapsed durations are integers computed as
  `end - start` so that non-negativity is a provable property, not an
  assumption baked into the type.
- Python `Dict[str, Any]` payloads are modelled as association lists with
  string values; the claims do not inspect them.
- Each underlying Redis primitive call (`brpop`, `lpush`, `hset`, `publish`,
  `hget`) either succeeds or raises, modelled by a `RedisOutcome` argument;
  the `try/except` wrappers in `messaging.py` are reflected in how each
  operation reacts to a raising primitive.
- The handler (`handle_task`) is external: its behaviour on a given task is
  an explicit `HandlerOutcome` argument (a returned result, or an exception
  carrying the text Python would produce via `str(e)`).
-/

/-- The `AgentType` enum from schemas.py. -/
inductive AgentType where
  | orchestrator
  | data_quality
  | model_monitor
  | feature_engineer
  | explainer
deriving DecidableEq, Repr

/-- The `TaskStatus` enum from schemas.py. -/
inductive TaskStatus where
  | pending
  | running
  | completed
  | failed
  | cancelled
deriving DecidableEq, Repr

/-- The `TaskPriority` enum from schemas.py. -/
inductive TaskPriority where
  | low
  | medium
  | high
  | critical
deriving DecidableEq, Repr

/-- The `AlertSeverity` enum from schemas.py. -/
inductive AlertSeverity where
  | info
  | warning
  | error
  | critical
deriving DecidableEq, Repr

/-- The `AgentTask` pydantic model from schemas.py. -/
structure AgentTask where
  task_id : String
  agent_id : AgentType
  task_type : String
  priority : TaskPriority
  parameters : List (String × String)
  created_at : Nat
  timeout_seconds : Option Nat
  retry_count : Nat
  max_retries : Nat
deriving DecidableEq, Repr

/-- The `AgentResult` pydantic model from schemas.py. -/
structure AgentResult where
  task_id : String
  agent_id : AgentType
  status : TaskStatus
  result_data : Option (List (String × String))
  metrics : List (String × Int)
  artifacts : List String
  duration_seconds : Int
  completed_at : Nat
  error_message : Option String
deriving DecidableEq, Repr

/-- The `AgentAlert` pydantic model from schemas.py. -/
structure AgentAlert where
  alert_id : String
  agent_id : AgentType
  severity : AlertSeverity
  message : String
  details : List (String × String)
  timestamp : Nat
  requires_action : Bool
  suggested_actions : List String
  related_task_id : Option String
deriving DecidableEq, Repr

/-- Outcome of one underlying Redis primitive call: it either succeeds or
raises a transport exception. -/
inductive RedisOutcome where
  | ok
  | raise
deriving DecidableEq, Repr

/-- A raw entry sitting on the Redis task queue: either valid serialized JSON
for an `AgentTask`, or a malformed payload on which `json.loads` /
`AgentTask(**task_dict)` raises during deserialization. -/
inductive QueueEntry where
  | valid (t : AgentTask)
  | malformed (raw : String)
deriving DecidableEq, Repr

/-- The broker state held in Redis: the three queues (`lpush` prepends,
`brpop` pops from the right, so lists are in push order with the oldest
entry last), the `results:{task_id}` hash store, the `alerts` pub/sub
channel log, and the `agent_heartbeats` hash. -/
structure BrokerState where
  task_queue : List QueueEntry
  result_queue : List AgentResult
  alert_queue : List AgentAlert
  result_store : List (String × AgentResult)
  alert_channel : List AgentAlert
  heartbeats : List (String × Nat)
deriving DecidableEq, Repr

/-- Hash-field lookup in the modelled `results:{task_id}` store. -/
def lookupStore : List (String × AgentResult) → String → Option AgentResult
  | [], _ => none
  | (k, v) :: rest, key => if k = key then some v else lookupStore rest key

/-- The `hset` on `results:{task_id}`: overwrite the binding for the key if
present, otherwise add it. -/
def upsertStore : List (String × AgentResult) → String → AgentResult → List (String × AgentResult)
  | [], k, v => [(k, v)]
  | (k', v') :: rest, k, v =>
      if k' = k then (k, v) :: rest else (k', v') :: upsertStore rest k v

/-- The `MessageQueue.consume_task` (messaging.py lines 68-90): `brpop` the task
queue with a timeout; on a popped entry, deserialize and validate it; on any
exception (transport or deserialization) the `except` clause logs and
returns `None`. Returns the new broker state and the optional task. -/
def consume_task (st : BrokerState) (brpopOut : RedisOutcome) :
    BrokerState × Option AgentTask :=
  match brpopOut with
  | .raise => (st, none)
  | .ok =>
    match st.task_queue.getLast? with
    | none => (st, none)
    | some e =>
      let st' := { st with task_queue := st.task_queue.dropLast }
      match e with
      | .valid t => (st', some t)
      | .malformed _ => (st', none)

/-- The `MessageQueue.publish_result` (messaging.py lines 99-114): `lpush` the
serialized result onto the result queue, then `hset` it into the
`results:{task_id}` hash; any exception is caught and `False` is returned,
otherwise `True`. -/
def publish_result (st : BrokerState) (r : AgentResult)
    (lpushOut hsetOut : RedisOutcome) : BrokerState × Bool :=
  match lpushOut with
  | .raise => (st, false)
  | .ok =>
    let st1 := { st with result_queue := r :: st.result_queue }
    match hsetOut with
    | .raise => (st1, false)
    | .ok =>
      ({ st1 with result_store := upsertStore st1.result_store r.task_id r }, true)

/-- The `MessageQueue.get_result` (messaging.py lines 116-126): `hget` the
`data` field of `results:{task_id}` and deserialize it; any exception is
caught and `None` is returned. -/
def get_result (st : BrokerState) (task_id : String) (hgetOut : RedisOutcome) :
    Option AgentResult :=
  match hgetOut with
  | .raise => none
  | .ok => lookupStore st.result_store task_id

/-- The `MessageQueue.publish_alert` (messaging.py lines 129-142): `lpush` the
serialized alert onto the alert queue, then `publish` it to the `alerts`
pub/sub channel; any exception is caught and `False` is returned. -/
def publish_alert (st : BrokerState) (a : AgentAlert)
    (lpushOut pubOut : RedisOutcome) : BrokerState × Bool :=
  match lpushOut with
  | .raise => (st, false)
  | .ok =>
    let st1 := { st with alert_queue := a :: st.alert_queue }
    match pubOut with
    | .raise => (st1, false)
    | .ok => ({ st1 with alert_channel := a :: st1.alert_channel }, true)

/-- Mutable fields of a `BaseAgent` instance (base_agent.py lines 38-44). -/
structure AgentState where
  agent_id : AgentType
  is_running : Bool
  start_time : Option Nat
  tasks_completed : Nat
  tasks_failed : Nat
deriving DecidableEq, Repr

/-- Behaviour of the external handler `handle_task(task)` on one invocation:
it either returns an `AgentResult`, or raises an exception whose Python
`str(e)` rendering is `errMsg` (possibly the empty string). -/
inductive HandlerOutcome where
  | success (r : AgentResult)
  | failure (errMsg : String)
deriving DecidableEq, Repr

/-- A message the runtime hands to the broker for publication, recorded in
the order the runtime issues the publish calls. -/
inductive Msg where
  | result (r : AgentResult)
  | alert (a : AgentAlert)
deriving DecidableEq, Repr

def Msg.isResult : Msg → Bool
  | .result _ => true
  | .alert _ => false

def Msg.isAlert : Msg → Bool
  | .result _ => false
  | .alert _ => true

/-- The `FAILED` result synthesized in the `except` branch of
`BaseAgent._execute_task` (base_agent.py lines 159-165): `error_message` is
`str(e)`, `duration_seconds` the elapsed wall-clock time, and the remaining
optional fields take their pydantic defaults. -/
def failureResult (task : AgentTask) (agentId : AgentType) (errMsg : String)
    (startT endT : Nat) : AgentResult :=
  { task_id := task.task_id
    agent_id := agentId
    status := .failed
    result_data := none
    metrics := []
    artifacts := []
    duration_seconds := (endT : Int) - (startT : Int)
    completed_at := endT
    error_message := some errMsg }

/-- The alert built by `BaseAgent.publish_alert` (base_agent.py lines
208-217) when `_execute_task` escalates a CRITICAL-priority failure (lines
169-174): severity CRITICAL, message interpolated from the task id and the
exception text, defaults for the rest. -/
def criticalAlert (alertId : String) (agentId : AgentType) (task : AgentTask)
    (errMsg : String) (now : Nat) : AgentAlert :=
  { alert_id := alertId
    agent_id := agentId
    severity := .critical
    message := "Critical task " ++ task.task_id ++ " failed: " ++ errMsg
    details := []
    timestamp := now
    requires_action := false
    suggested_actions := []
    related_task_id := some task.task_id }

/-- Combined effects of one `_execute_task` call: the updated agent fields,
the updated broker state, and the publish calls the runtime issued, in
order. -/
structure ExecEffects where
  agent : AgentState
  broker : BrokerState
  msgs : List Msg
deriving DecidableEq, Repr

/-- The `BaseAgent._execute_task` (base_agent.py lines 129-174). On handler
success: stamp the elapsed duration onto the handler's result, publish it
(the boolean returned by `publish_result` is discarded), increment
`tasks_completed`. On handler failure: increment `tasks_failed`, synthesize
a FAILED result, publish it, and publish a CRITICAL alert iff the task's
priority is CRITICAL. `publish_result` and `publish_alert` catch their own
exceptions, so `_execute_task` itself completes on every path. -/
def executeTask (ag : AgentState) (brk : BrokerState) (task : AgentTask)
    (outcome : HandlerOutcome) (startT endT : Nat) (alertId : String)
    (resLpush resHset alertLpush alertPub : RedisOutcome) : ExecEffects :=
  match outcome with
  | .success r =>
    let r' := { r with duration_seconds := (endT : Int) - (startT : Int) }
    let brk1 := (publish_result brk r' resLpush resHset).1
    { agent := { ag with tasks_completed := ag.tasks_completed + 1 }
      broker := brk1
      msgs := [.result r'] }
  | .failure errMsg =>
    let ag1 := { ag with tasks_failed := ag.tasks_failed + 1 }
    let r := failureResult task ag.agent_id errMsg startT endT
    let brk1 := (publish_result brk r resLpush resHset).1
    if task.priority = .critical then
      let a := criticalAlert alertId ag.agent_id task errMsg endT
      let brk2 := (publish_alert brk1 a alertLpush alertPub).1
      { agent := ag1, broker := brk2, msgs := [.result r, .alert a] }
    else
      { agent := ag1, broker := brk1, msgs := [.result r] }

/-- One iteration of `BaseAgent._run_loop` (base_agent.py lines 110-127):
if the running flag is set, `consume_task` (timeout 5s); a popped task is
executed only when its `agent_id` equals this runtime's identity, else it
is dropped on the floor. -/
def runLoopIteration (ag : AgentState) (brk : BrokerState)
    (brpopOut : RedisOutcome) (outcome : HandlerOutcome) (startT endT : Nat)
    (alertId : String) (resLpush resHset alertLpush alertPub : RedisOutcome) :
    ExecEffects :=
  if ag.is_running then
    let popped := consume_task brk brpopOut
    match popped.2 with
    | some task =>
      if task.agent_id = ag.agent_id then
        executeTask ag popped.1 task outcome startT endT alertId
          resLpush resHset alertLpush alertPub
      else
        { agent := ag, broker := popped.1, msgs := [] }
    | none => { agent := ag, broker := popped.1, msgs := [] }
  else
    { agent := ag, broker := brk, msgs := [] }

/-- Behaviour of the external handler's `initialize()`: returns normally or
raises with message `e`. -/
inductive InitOutcome where
  | ok
  | raise (e : String)
deriving DecidableEq, Repr

/-- What a call to `BaseAgent.start` did before returning or raising. -/
structure StartResult where
  state : AgentState
  heartbeat_launched : Bool
  heartbeat_cancelled : Bool
  main_loop_entered : Bool
  propagated : Option String
deriving DecidableEq, Repr

/-- The `BaseAgent.start` (base_agent.py lines 46-59): set `is_running := true`
and record the start time, launch the heartbeat task, then call the
handler's `initialize()` — with no surrounding `try`, so an exception there
propagates to the caller before `_run_loop` is entered, and nothing cancels
the already-launched heartbeat task. -/
def start (ag : AgentState) (now : Nat) (initOut : InitOutcome) : StartResult :=
  let ag1 := { ag with is_running := true, start_time := some now }
  match initOut with
  | .raise e =>
    { state := ag1
      heartbeat_launched := true
      heartbeat_cancelled := false
      main_loop_entered := false
      propagated := some e }
  | .ok =>
    { state := ag1
      heartbeat_launched := true
      heartbeat_cancelled := false
      main_loop_entered := true
      propagated := none }

/-- One scheduling of an iteration of `BaseAgent._heartbeat_loop`
(base_agent.py lines 176-186): the heartbeat write either succeeds, raises
a non-cancellation exception, or is interrupted by task cancellation. -/
inductive HbEvent where
  | ok
  | err (e : String)
  | cancel
deriving DecidableEq, Repr

/-- Why a finite run of the heartbeat loop stopped producing iterations. -/
inductive HbExit where
  | cancelled
  | notRunning
  | fuelOut
deriving DecidableEq, Repr

/-- Observable outcome of a finite run of the heartbeat loop: how many
heartbeat writes landed, the sleep durations performed (in order), and why
the run stopped. -/
structure HbRun where
  writes : Nat
  sleeps : List Nat
  exit : HbExit
deriving DecidableEq, Repr

/-- The `BaseAgent._heartbeat_loop` (base_agent.py lines 176-186), driven by a
finite trace: each element gives the `is_running` flag observed at the top
of the `while` and, when the body runs, what happened during the write.
A successful write sleeps the configured interval; a non-cancellation
exception is logged and also sleeps the same interval; a cancellation
breaks out immediately, performing no write. -/
def heartbeatRun (interval : Nat) : List (Bool × HbEvent) → HbRun
  | [] => { writes := 0, sleeps := [], exit := .fuelOut }
  | (flag, ev) :: rest =>
    if flag then
      match ev with
      | .cancel => { writes := 0, sleeps := [], exit := .cancelled }
      | .ok =>
        let r := heartbeatRun interval rest
        { writes := r.writes + 1, sleeps := interval :: r.sleeps, exit := r.exit }
      | .err _ =>
        let r := heartbeatRun interval rest
        { writes := r.writes, sleeps := interval :: r.sleeps, exit := r.exit }
    else
      { writes := 0, sleeps := [], exit := .notRunning }

theorem lookupStore_upsertStore (s : List (String × AgentResult))
    (k : String) (v : AgentResult) : lookupStore (upsertStore s k v) k = some v := by
  induction s with
  | nil => simp [upsertStore, lookupStore]
  | cons hd tl ih =>
    obtain ⟨k', v'⟩ := hd
    by_cases h : k' = k
    · simp [upsertStore, h, lookupStore]
    · simp [upsertStore, h, lookupStore, ih]

/-- C6: a successful `publish_result r` both prepends `r` to the result
queue and upserts the `results:{task_id}` store, so an immediately
subsequent `get_result r.task_id` returns `r`; pushing a second result for
the same `task_id` overwrites the stored one, so `get_result` then returns
the latest. -/
theorem publish_result_upserts_and_get_returns_latest
    (st : BrokerState) (r1 r2 : AgentResult) :
    (publish_result st r1 .ok .ok).2 = true ∧
    (publish_result st r1 .ok .ok).1.result_queue = r1 :: st.result_queue ∧
    get_result (publish_result st r1 .ok .ok).1 r1.task_id .ok = some r1 ∧
    (publish_result (publish_result st r1 .ok .ok).1
        { r2 with task_id := r1.task_id } .ok .ok).2 = true ∧
    get_result (publish_result (publish_result st r1 .ok .ok).1
        { r2 with task_id := r1.task_id } .ok .ok).1 r1.task_id .ok =
      some { r2 with task_id := r1.task_id } := by
  refine ⟨rfl, rfl, ?_, rfl, ?_⟩
  · simp [publish_result, get_result, lookupStore_upsertStore]
  · simp [publish_result, get_result, lookupStore_upsertStore]

/-- Concrete DATA_QUALITY agent state used by witnesses and counterexamples. -/
def agent0 : AgentState :=
  { agent_id := .data_quality
    is_running := false
    start_time := none
    tasks_completed := 0
    tasks_failed := 0 }

/-- Empty broker state used by witnesses and counterexamples. -/
def broker0 : BrokerState :=
  { task_queue := []
    result_queue := []
    alert_queue := []
    result_store := []
    alert_channel := []
    heartbeats := [] }

/-- Concrete task addressed to MODEL_MONITOR, used by witnesses. -/
def task0 : AgentTask :=
  { task_id := "T1"
    agent_id := .model_monitor
    task_type := "check_drift"
    priority := .high
    parameters := []
    created_at := 0
    timeout_seconds := none
    retry_count := 0
    max_retries := 3 }

/-- Concrete handler result used by witnesses. -/
def res0 : AgentResult :=
  { task_id := "T1"
    agent_id := .data_quality
    status := .completed
    result_data := none
    metrics := []
    artifacts := []
    duration_seconds := 0
    completed_at := 0
    error_message := none }

/-- C1: when the handler raises, `_execute_task` issues exactly one Result
publish, its result has status FAILED, and it issues exactly one Alert
publish — with severity CRITICAL and `related_task_id` equal to the task's
id — iff the task priority is CRITICAL (otherwise no alert); when both are
issued, the Result publish precedes the Alert publish. -/
theorem executeTask_failure_result_then_alert_iff_critical
    (ag : AgentState) (brk : BrokerState) (task : AgentTask) (errMsg : String)
    (startT endT : Nat) (alertId : String) (o1 o2 o3 o4 : RedisOutcome) :
    ((executeTask ag brk task (.failure errMsg) startT endT alertId
        o1 o2 o3 o4).msgs.filter Msg.isResult =
      [Msg.result (failureResult task ag.agent_id errMsg startT endT)]) ∧
    (failureResult task ag.agent_id errMsg startT endT).status = TaskStatus.failed ∧
    (if task.priority = TaskPriority.critical then
      (executeTask ag brk task (.failure errMsg) startT endT alertId
          o1 o2 o3 o4).msgs =
        [Msg.result (failureResult task ag.agent_id errMsg startT endT),
         Msg.alert (criticalAlert alertId ag.agent_id task errMsg endT)] ∧
      (criticalAlert alertId ag.agent_id task errMsg endT).severity =
        AlertSeverity.critical ∧
      (criticalAlert alertId ag.agent_id task errMsg endT).related_task_id =
        some task.task_id
    else
      (executeTask ag brk task (.failure errMsg) startT endT alertId
          o1 o2 o3 o4).msgs =
        [Msg.result (failureResult task ag.agent_id errMsg startT endT)]) := by
  by_cases h : task.priority = TaskPriority.critical <;>
    simp [executeTask, h, Msg.isResult, failureResult, criticalAlert, List.filter]

/-- C2 counterexample: when `initialize()` raises, `start` does propagate
the exception and never enters the main loop, but — contrary to the claim —
the running flag has already been set and the heartbeat task, launched
before initialization, is left uncancelled. -/
theorem start_initFailure_leaves_running_flag_set :
    (start agent0 7 (.raise "init failed")).propagated = some "init failed" ∧
    (start agent0 7 (.raise "init failed")).main_loop_entered = false ∧
    (start agent0 7 (.raise "init failed")).state.is_running = true ∧
    (start agent0 7 (.raise "init failed")).heartbeat_launched = true ∧
    (start agent0 7 (.raise "init failed")).heartbeat_cancelled = false :=
  ⟨rfl, rfl, rfl, rfl, rfl⟩

/-- C2 amended: if the handler's `initialize()` raises, the exception
propagates to the caller of `start()` and the main consumption loop is
never entered; however `is_running` was set to true and the heartbeat
sub-loop was launched before initialization, and neither is undone. -/
theorem start_initFailure_propagates_without_entering_loop
    (ag : AgentState) (now : Nat) (e : String) :
    (start ag now (.raise e)).propagated = some e ∧
    (start ag now (.raise e)).main_loop_entered = false ∧
    (start ag now (.raise e)).state.is_running = true ∧
    (start ag now (.raise e)).heartbeat_launched = true ∧
    (start ag now (.raise e)).heartbeat_cancelled = false :=
  ⟨rfl, rfl, rfl, rfl, rfl⟩

/-- C3: a popped task whose `agent_id` differs from the runtime's identity
is discarded: the handler is not invoked, no publish call is issued, the
task is removed from the task queue and not pushed back, and the agent's
counters are unchanged. -/
theorem runLoop_mismatched_task_discarded
    (ag : AgentState) (brk : BrokerState) (pre : List QueueEntry)
    (task : AgentTask) (outcome : HandlerOutcome) (startT endT : Nat)
    (alertId : String) (o1 o2 o3 o4 : RedisOutcome)
    (hmismatch : task.agent_id ≠ ag.agent_id) :
    runLoopIteration { ag with is_running := true }
        { brk with task_queue := pre ++ [QueueEntry.valid task] }
        .ok outcome startT endT alertId o1 o2 o3 o4 =
      { agent := { ag with is_running := true }
        broker := { brk with task_queue := pre }
        msgs := [] } := by
  simp [runLoopIteration, consume_task, List.getLast?_concat,
    List.dropLast_concat, hmismatch]

/-- C3 witness: a MODEL_MONITOR task popped by the DATA_QUALITY runtime is
dropped with no effects. -/
theorem runLoop_mismatched_task_discarded_witness :
    task0.agent_id ≠ agent0.agent_id ∧
    runLoopIteration { agent0 with is_running := true }
        { broker0 with task_queue := [] ++ [QueueEntry.valid task0] }
        .ok (.success res0) 0 1 "a" .ok .ok .ok .ok =
      { agent := { agent0 with is_running := true }
        broker := { broker0 with task_queue := [] }
        msgs := [] } :=
  ⟨by decide,
   runLoop_mismatched_task_discarded agent0 broker0 [] task0 (.success res0)
     0 1 "a" .ok .ok .ok .ok (by decide)⟩

/-- C4 counterexample: the runtime does not make `error_message` set iff
status is FAILED. (a) On handler success it publishes the handler's result
unvalidated, so a COMPLETED result carrying `error_message = "stale"` is
published as-is; (b) on a handler exception whose `str(e)` is empty, the
synthesized FAILED result's `error_message` is the empty string, not a
non-empty one. -/
theorem executeTask_error_message_iff_failed_refuted :
    ((executeTask agent0 broker0 task0
        (.success { res0 with error_message := some "stale" })
        0 1 "a" .ok .ok .ok .ok).msgs =
      [Msg.result { res0 with error_message := some "stale", duration_seconds := 1 }]) ∧
    ({ res0 with error_message := some "stale", duration_seconds := 1 } : AgentResult).status ≠
      TaskStatus.failed ∧
    ({ res0 with error_message := some "stale", duration_seconds := 1 } : AgentResult).error_message ≠
      none ∧
    ((executeTask agent0 broker0 task0 (.failure "") 0 1 "b" .ok .ok .ok .ok).msgs =
      [Msg.result (failureResult task0 AgentType.data_quality "" 0 1)]) ∧
    (failureResult task0 AgentType.data_quality "" 0 1).status = TaskStatus.failed ∧
    (failureResult task0 AgentType.data_quality "" 0 1).error_message = some "" := by
  refine ⟨?_, by decide, by decide, ?_, by decide, by decide⟩ <;> decide

/-- C4 amended: the FAILED result synthesized on handler failure always has
`error_message = some (str e)` — set, but empty exactly when the exception
text is empty — while on handler success the runtime publishes the
handler's `error_message` unchanged (it neither sets nor clears it), so the
claimed iff holds only for handlers that leave `error_message` unset on
success and exceptions with non-empty text. -/
theorem executeTask_error_message_by_path
    (ag : AgentState) (brk : BrokerState) (task : AgentTask) (errMsg : String)
    (r : AgentResult) (startT endT : Nat) (alertId : String)
    (o1 o2 o3 o4 : RedisOutcome) :
    ((executeTask ag brk task (.failure errMsg) startT endT alertId
        o1 o2 o3 o4).msgs.head? =
      some (Msg.result (failureResult task ag.agent_id errMsg startT endT))) ∧
    (failureResult task ag.agent_id errMsg startT endT).status = TaskStatus.failed ∧
    (failureResult task ag.agent_id errMsg startT endT).error_message = some errMsg ∧
    ((executeTask ag brk task (.success r) startT endT alertId
        o1 o2 o3 o4).msgs =
      [Msg.result { r with duration_seconds := (endT : Int) - (startT : Int) }]) ∧
    ({ r with duration_seconds := (endT : Int) - (startT : Int) } : AgentResult).error_message =
      r.error_message := by
  by_cases h : task.priority = TaskPriority.critical <;>
    simp [executeTask, h, failureResult]

/-- C5 counterexample: a transport exception in the `hset` upsert after a
successful `lpush` makes `publish_result` return `False`, yet the result
has already been delivered to the result queue — refuting "returns false
without delivering". -/
theorem publish_result_partial_delivery :
    (publish_result broker0 res0 .ok .raise).2 = false ∧
    (publish_result broker0 res0 .ok .raise).1.result_queue = [res0] ∧
    res0 ∈ (publish_result broker0 res0 .ok .raise).1.result_queue := by
  refine ⟨rfl, rfl, ?_⟩
  simp [publish_result, broker0]

/-- C5 amended: broker exceptions never propagate out of `consume_task` or
`publish_result`. A raising `brpop` makes `consume_task` return `none` with
the broker state untouched — indistinguishable from a timeout with no task
available; a raising `lpush` makes `publish_result` return `false` with
nothing delivered; but when `lpush` succeeds and only the `hset` upsert
raises, `publish_result` still returns `false` while the result is already
on the result queue (delivery is partial, with no retry or buffering). -/
theorem broker_errors_soft_fail
    (st : BrokerState) (r : AgentResult) (o : RedisOutcome) :
    consume_task st .raise = (st, none) ∧
    publish_result st r .raise o = (st, false) ∧
    (publish_result st r .ok .raise).1 =
      { st with result_queue := r :: st.result_queue } ∧
    (publish_result st r .ok .raise).2 = false := by
  exact ⟨rfl, rfl, rfl, rfl⟩

theorem heartbeatRun_no_cancel_no_exit (interval : Nat)
    (trace : List (Bool × HbEvent))
    (h : ∀ p ∈ trace, p.1 = true ∧ p.2 ≠ HbEvent.cancel) :
    (heartbeatRun interval trace).exit = HbExit.fuelOut := by
  induction trace with
  | nil => rfl
  | cons hd tl ih =>
    obtain ⟨flag, ev⟩ := hd
    obtain ⟨hflag, hev⟩ := h (flag, ev) (List.mem_cons_self _ _)
    have htl : ∀ p ∈ tl, p.1 = true ∧ p.2 ≠ HbEvent.cancel := by
      intro p hp
      exact h p (List.mem_cons_of_mem _ hp)
    subst hflag
    cases ev with
    | ok => simpa [heartbeatRun] using ih htl
    | err e => simpa [heartbeatRun] using ih htl
    | cancel => exact absurd rfl hev

theorem heartbeatRun_exit_has_reason (interval : Nat)
    (trace : List (Bool × HbEvent))
    (h : (heartbeatRun interval trace).exit = HbExit.cancelled ∨
      (heartbeatRun interval trace).exit = HbExit.notRunning) :
    ∃ p ∈ trace, p.2 = HbEvent.cancel ∨ p.1 = false := by
  induction trace with
  | nil => simp [heartbeatRun] at h
  | cons hd tl ih =>
    obtain ⟨flag, ev⟩ := hd
    cases flag with
    | false => exact ⟨(false, ev), List.mem_cons_self _ _, Or.inr rfl⟩
    | true =>
      cases ev with
      | cancel => exact ⟨(true, .cancel), List.mem_cons_self _ _, Or.inl rfl⟩
      | ok =>
        have h' : (heartbeatRun interval tl).exit = HbExit.cancelled ∨
            (heartbeatRun interval tl).exit = HbExit.notRunning := by
          simpa [heartbeatRun] using h
        obtain ⟨p, hp, hr⟩ := ih h'
        exact ⟨p, List.mem_cons_of_mem _ hp, hr⟩
      | err e =>
        have h' : (heartbeatRun interval tl).exit = HbExit.cancelled ∨
            (heartbeatRun interval tl).exit = HbExit.notRunning := by
          simpa [heartbeatRun] using h
        obtain ⟨p, hp, hr⟩ := ih h'
        exact ⟨p, List.mem_cons_of_mem _ hp, hr⟩

theorem heartbeatRun_sleeps_const (interval : Nat)
    (trace : List (Bool × HbEvent)) :
    ∀ d ∈ (heartbeatRun interval trace).sleeps, d = interval := by
  induction trace with
  | nil => simp [heartbeatRun]
  | cons hd tl ih =>
    obtain ⟨flag, ev⟩ := hd
    cases flag with
    | false => simp [heartbeatRun]
    | true =>
      cases ev with
      | cancel => simp [heartbeatRun]
      | ok =>
        intro d hmem
        simp [heartbeatRun] at hmem
        rcases hmem with h' | h'
        · exact h'
        · exact ih d h'
      | err e =>
        intro d hmem
        simp [heartbeatRun] at hmem
        rcases hmem with h' | h'
        · exact h'
        · exact ih d h'

/-- C7: a finite run of the heartbeat loop never stops because of a broker
error — if every observed flag is true and no iteration is cancelled, the
run only ends by exhausting its trace; whenever the run does exit, the
trace contains a cancellation or a false running flag; every sleep it
performs (after a successful or a failed write alike) lasts the configured
interval; and a cancelled iteration ends the loop at once without a
heartbeat write. -/
theorem heartbeatLoop_resilient (interval : Nat)
    (trace rest : List (Bool × HbEvent)) :
    ((∀ p ∈ trace, p.1 = true ∧ p.2 ≠ HbEvent.cancel) →
      (heartbeatRun interval trace).exit = HbExit.fuelOut) ∧
    ((heartbeatRun interval trace).exit = HbExit.cancelled ∨
        (heartbeatRun interval trace).exit = HbExit.notRunning →
      ∃ p ∈ trace, p.2 = HbEvent.cancel ∨ p.1 = false) ∧
    (∀ d ∈ (heartbeatRun interval trace).sleeps, d = interval) ∧
    heartbeatRun interval ((true, HbEvent.cancel) :: rest) =
      { writes := 0, sleeps := [], exit := HbExit.cancelled } := by
  exact ⟨heartbeatRun_no_cancel_no_exit interval trace,
    heartbeatRun_exit_has_reason interval trace,
    heartbeatRun_sleeps_const interval trace, rfl⟩

/-- C7 witness: a run hitting only write errors stays live; a run that
exits did observe a false flag; error iterations sleep the configured 60s
interval. -/
theorem heartbeatLoop_resilient_witness :
    (heartbeatRun 60 [(true, .ok), (true, .err "boom"), (true, .ok)]).exit =
      HbExit.fuelOut ∧
    (∃ p ∈ [(true, HbEvent.ok), (false, HbEvent.ok)],
      p.2 = HbEvent.cancel ∨ p.1 = false) ∧
    (∀ d ∈ (heartbeatRun 60 [(true, .err "a"), (true, .err "b")]).sleeps, d = 60) ∧
    heartbeatRun 60 [(true, HbEvent.cancel)] =
      { writes := 0, sleeps := [], exit := HbExit.cancelled } := by
  have h1 := heartbeatLoop_resilient 60 [(true, .ok), (true, .err "boom"), (true, .ok)] []
  have h2 := heartbeatLoop_resilient 60 [(true, .ok), (false, .ok)] []
  have h3 := heartbeatLoop_resilient 60 [(true, .err "a"), (true, .err "b")] []
  have h4 := heartbeatLoop_resilient 60 [] []
  exact ⟨h1.1 (by decide), h2.2.1 (by decide), h3.2.2.1, h4.2.2.2⟩

/-- Everything that drives one `_execute_task` call on a matching task: the
task, the handler's behaviour, the wall-clock readings, the generated alert
id, and the outcome of each Redis primitive used by the publish calls. -/
structure ExecInput where
  task : AgentTask
  outcome : HandlerOutcome
  startT : Nat
  endT : Nat
  alertId : String
  resLpush : RedisOutcome
  resHset : RedisOutcome
  alertLpush : RedisOutcome
  alertPub : RedisOutcome
deriving DecidableEq, Repr

/-- A sequence of `_execute_task` calls on one runtime, threading the agent
fields and the broker state. -/
def runExecutions : AgentState → BrokerState → List ExecInput → AgentState × BrokerState
  | ag, brk, [] => (ag, brk)
  | ag, brk, i :: rest =>
    let eff := executeTask ag brk i.task i.outcome i.startT i.endT i.alertId
      i.resLpush i.resHset i.alertLpush i.alertPub
    runExecutions eff.agent eff.broker rest

theorem executeTask_counter_sum (ag : AgentState) (brk : BrokerState)
    (task : AgentTask) (outcome : HandlerOutcome) (startT endT : Nat)
    (alertId : String) (o1 o2 o3 o4 : RedisOutcome) :
    (executeTask ag brk task outcome startT endT alertId o1 o2 o3 o4).agent.tasks_completed +
      (executeTask ag brk task outcome startT endT alertId o1 o2 o3 o4).agent.tasks_failed =
    ag.tasks_completed + ag.tasks_failed + 1 := by
  cases outcome with
  | success r => simp [executeTask]; omega
  | failure e =>
    by_cases h : task.priority = TaskPriority.critical <;>
      simp [executeTask, h] <;> omega

/-- C8: each executed task bumps exactly one of the two counters —
`tasks_completed` on handler success, `tasks_failed` on handler failure —
with the boolean returned by `publish_result` ignored, so after any
sequence of `n` executed tasks (whatever the Redis outcomes, including
every delivery failing) the counters sum to their initial sum plus `n`. -/
theorem runtime_counts_every_executed_task
    (ag : AgentState) (brk : BrokerState) (inputs : List ExecInput)
    (task : AgentTask) (r : AgentResult) (errMsg : String) (startT endT : Nat)
    (alertId : String) (o1 o2 o3 o4 : RedisOutcome) :
    ((runExecutions ag brk inputs).1.tasks_completed +
        (runExecutions ag brk inputs).1.tasks_failed =
      ag.tasks_completed + ag.tasks_failed + inputs.length) ∧
    ((executeTask ag brk task (.success r) startT endT alertId
        o1 o2 o3 o4).agent.tasks_completed = ag.tasks_completed + 1) ∧
    ((executeTask ag brk task (.success r) startT endT alertId
        o1 o2 o3 o4).agent.tasks_failed = ag.tasks_failed) ∧
    ((executeTask ag brk task (.failure errMsg) startT endT alertId
        o1 o2 o3 o4).agent.tasks_failed = ag.tasks_failed + 1) ∧
    ((executeTask ag brk task (.failure errMsg) startT endT alertId
        o1 o2 o3 o4).agent.tasks_completed = ag.tasks_completed) := by
  refine ⟨?_, ?_, ?_, ?_, ?_⟩
  · induction inputs generalizing ag brk with
    | nil => simp [runExecutions]
    | cons i rest ih =>
      have hstep := executeTask_counter_sum ag brk i.task i.outcome i.startT
        i.endT i.alertId i.resLpush i.resHset i.alertLpush i.alertPub
      simp only [runExecutions]
      rw [ih]
      simp only [List.length_cons]
      omega
  · simp [executeTask]
  · simp [executeTask]
  · by_cases h : task.priority = TaskPriority.critical <;> simp [executeTask, h]
  · by_cases h : task.priority = TaskPriority.critical <;> simp [executeTask, h]

/-- C9: a malformed entry popped from the task queue is swallowed:
`consume_task` catches the deserialization error and returns `none`
(instead of raising), and the entry has been destructively removed from the
queue — the resulting queue is exactly the remaining prefix, with nothing
pushed back. -/
theorem consume_task_malformed_swallowed
    (st : BrokerState) (pre : List QueueEntry) (raw : String) :
    consume_task { st with task_queue := pre ++ [QueueEntry.malformed raw] } .ok =
      ({ st with task_queue := pre }, none) := by
  simp [consume_task, List.getLast?_concat, List.dropLast_concat]

/-- C10: on handler success the runtime publishes the handler's result with
only `duration_seconds` overwritten — set to the elapsed wall-clock time,
which is non-negative when the clock did not go backwards — and every other
field (`task_id`, `agent_id`, `status`, `result_data`, `metrics`,
`artifacts`, `completed_at`, `error_message`) carried over unchanged and
unvalidated. -/
theorem executeTask_success_overwrites_only_duration
    (ag : AgentState) (brk : BrokerState) (task : AgentTask) (r : AgentResult)
    (startT endT : Nat) (alertId : String) (o1 o2 o3 o4 : RedisOutcome)
    (h : startT ≤ endT) :
    (executeTask ag brk task (.success r) startT endT alertId
        o1 o2 o3 o4).msgs =
      [Msg.result { r with duration_seconds := (endT : Int) - (startT : Int) }] ∧
    ({ r with duration_seconds := (endT : Int) - (startT : Int) } : AgentResult).task_id = r.task_id ∧
    ({ r with duration_seconds := (endT : Int) - (startT : Int) } : AgentResult).agent_id = r.agent_id ∧
    ({ r with duration_seconds := (endT : Int) - (startT : Int) } : AgentResult).status = r.status ∧
    ({ r with duration_seconds := (endT : Int) - (startT : Int) } : AgentResult).result_data = r.result_data ∧
    ({ r with duration_seconds := (endT : Int) - (startT : Int) } : AgentResult).metrics = r.metrics ∧
    ({ r with duration_seconds := (endT : Int) - (startT : Int) } : AgentResult).artifacts = r.artifacts ∧
    ({ r with duration_seconds := (endT : Int) - (startT : Int) } : AgentResult).completed_at = r.completed_at ∧
    ({ r with duration_seconds := (endT : Int) - (startT : Int) } : AgentResult).error_message = r.error_message ∧
    ({ r with duration_seconds := (endT : Int) - (startT : Int) } : AgentResult).duration_seconds =
      (endT : Int) - (startT : Int) ∧
    0 ≤ ({ r with duration_seconds := (endT : Int) - (startT : Int) } : AgentResult).duration_seconds := by
  refine ⟨by simp [executeTask], rfl, rfl, rfl, rfl, rfl, rfl, rfl, rfl, rfl, ?_⟩
  simp only []
  omega

/-- C10 witness: a concrete success-path execution with start time 0 and
end time 2 publishes the handler's result with duration 2 and nothing else
changed. -/
theorem executeTask_success_overwrites_only_duration_witness :
    (0 : Nat) ≤ 2 ∧
    (executeTask agent0 broker0 task0 (.success res0) 0 2 "a"
        .ok .ok .ok .ok).msgs =
      [Msg.result { res0 with duration_seconds := ((2 : Nat) : Int) - ((0 : Nat) : Int) }] ∧
    ({ res0 with duration_seconds := ((2 : Nat) : Int) - ((0 : Nat) : Int) } : AgentResult).error_message =
      res0.error_message :=
  ⟨by decide,
   (executeTask_success_overwrites_only_duration agent0 broker0 task0 res0
      0 2 "a" .ok .ok .ok .ok (by decide)).1,
   (executeTask_success_overwrites_only_duration agent0 broker0 task0 res0
      0 2 "a" .ok .ok .ok .ok (by decide)).2.2.2.2.2.2.2.2.1⟩
